import Mathlib

/-!
Verification development for the Git-Summary repository: a shallow embedding
of the LLM retry/fallback ladders (`chatgpt-service.js`, `src/llm/gemini-service.js`),
the ticket-id extraction and aggregation pipeline (`git-log.js`), and the
ticket fetch/list services (`ticket-api.js`, `src/task-management/jira.js`),
together with theorems settling the specification claims.
-/

set_option maxRecDepth 4000

/-! ## String utilities (JS `String.prototype.includes` on lowered strings) -/

/-- Char-list prefix test, mirroring substring search primitives. -/
def listPrefixOf : List Char → List Char → Bool
  | [], _ => true
  | _ :: _, [] => false
  | a :: as, b :: bs => a == b && listPrefixOf as bs

/-- Char-list infix test: does `pat` occur contiguously in the list? -/
def listInfixOf (pat : List Char) : List Char → Bool
  | [] => pat.isEmpty
  | c :: rest => listPrefixOf pat (c :: rest) || listInfixOf pat rest

/-- JS `s.includes(pat)`: substring containment. -/
def strIncludes (s pat : String) : Bool :=
  listInfixOf pat.toList s.toList

/-- JS `s.toLowerCase()` (ASCII, which covers every compared literal). -/
def strToLower (s : String) : String :=
  String.mk (s.toList.map Char.toLower)

/-! ## Error model for the LLM services

`makeRequest` (both providers) rejects with either a plain `Error` (which has a
`message` and no `statusCode`/`data`) or with the structured object
`{statusCode, statusMessage, data}` where `data` is the parsed provider JSON
body, usually of shape `{error: {message, code}}`.  Each field in the chain
may be absent, exactly as a JS property may be `undefined`. -/

/-- The provider JSON `data.error` object: `message` and `code` may be absent. -/
structure ProviderErr where
  message : Option String
  code : Option String
deriving DecidableEq, Repr

/-- The provider JSON `data` object: the `error` field may be absent. -/
structure ErrData where
  error : Option ProviderErr
deriving DecidableEq, Repr

/-- A JS error value as observed by the retry loops: a plain `Error` has
`message` set and `statusMessage`/`data` absent; the structured rejection
object from `makeRequest` has `statusMessage`/`data` set and no `message`. -/
structure ApiError where
  message : Option String
  statusMessage : Option String
  data : Option ErrData
deriving DecidableEq, Repr

/-- JS `error.message || error.toString()`: a plain object without a
`message` stringifies to `"[object Object]"`. -/
def errMessage (e : ApiError) : String :=
  e.message.getD "[object Object]"

/-- JS `error.data?.error?.message`: the optional-chained lookup. -/
def dataErrMessage (e : ApiError) : Option String :=
  match e.data with
  | none => none
  | some d =>
    match d.error with
    | none => none
    | some pe => pe.message

/-- JS `error.data?.error?.message || ""` as used by the classifiers. -/
def errDataMessage (e : ApiError) : String :=
  (dataErrMessage e).getD ""

/-- JS `error.data?.error?.code || ""` as used by `analyzeError`. -/
def errCode (e : ApiError) : String :=
  match e.data with
  | none => ""
  | some d =>
    match d.error with
    | none => ""
    | some pe => (pe.code.getD "")

/-- JS falsy-coalescing on an optional string: `s || null` maps the empty
string (and an absent value) to `null`. -/
def jsOrNull : Option String → Option String
  | some "" => none
  | o => o

/-- JS `error.data?.error?.message || error.message` used when building the
typed error messages; interpolating an absent field prints `undefined`. -/
def errDetail (e : ApiError) : String :=
  match jsOrNull (dataErrMessage e) with
  | some m => m
  | none => e.message.getD "undefined"

/-- JS `${error.statusMessage}` interpolation. -/
def errStatusMessage (e : ApiError) : String :=
  e.statusMessage.getD "undefined"

/-! ## Error classifiers

`analyzeError` from `chatgpt-service.js` and `shouldRetry` from
`src/llm/gemini-service.js`, transcribed branch by branch. -/

/-- Result of `analyzeError`: `{shouldRetry, shouldFallback}`. -/
structure RetryDecision where
  shouldRetry : Bool
  shouldFallback : Bool
deriving DecidableEq, Repr

/-- First `analyzeError` branch: quota/billing indicators. -/
def cgQuotaCond (e : ApiError) : Bool :=
  strIncludes (strToLower (errMessage e)) "quota" ||
  strIncludes (strToLower (errMessage e)) "billing" ||
  strIncludes (strToLower (errDataMessage e)) "quota" ||
  strIncludes (strToLower (errDataMessage e)) "billing" ||
  errCode e == "insufficient_quota"

/-- Second `analyzeError` branch: invalid API key / unauthorized. -/
def cgKeyCond (e : ApiError) : Bool :=
  strIncludes (strToLower (errMessage e)) "invalid api key" ||
  strIncludes (strToLower (errMessage e)) "unauthorized" ||
  strIncludes (strToLower (errDataMessage e)) "invalid api key" ||
  errCode e == "invalid_api_key"

/-- Third `analyzeError` branch: unrecognized/unsupported model. -/
def cgModelCond (e : ApiError) : Bool :=
  strIncludes (strToLower (errMessage e)) "model" ||
  strIncludes (strToLower (errDataMessage e)) "model" ||
  errCode e == "model_not_found"

/-- Fourth `analyzeError` branch: rate limiting. -/
def cgRateCond (e : ApiError) : Bool :=
  strIncludes (strToLower (errMessage e)) "rate limit" ||
  strIncludes (strToLower (errDataMessage e)) "rate limit" ||
  errCode e == "rate_limit_exceeded"

/-- `analyzeError` from `chatgpt-service.js` (lines 156-202). -/
def analyzeError (e : ApiError) : RetryDecision :=
  if cgQuotaCond e then ⟨false, false⟩
  else if cgKeyCond e then ⟨false, false⟩
  else if cgModelCond e then ⟨false, true⟩
  else if cgRateCond e then ⟨false, false⟩
  else ⟨true, true⟩

/-- First `shouldRetry` branch of the Gemini service: rate limit / quota. -/
def gmRateQuotaCond (e : ApiError) : Bool :=
  strIncludes (strToLower (errMessage e)) "rate limit" ||
  strIncludes (strToLower (errMessage e)) "quota" ||
  strIncludes (strToLower (errDataMessage e)) "rate limit" ||
  strIncludes (strToLower (errDataMessage e)) "quota"

/-- Second `shouldRetry` branch of the Gemini service: auth errors. -/
def gmAuthCond (e : ApiError) : Bool :=
  strIncludes (strToLower (errMessage e)) "unauthorized" ||
  strIncludes (strToLower (errMessage e)) "invalid api key" ||
  strIncludes (strToLower (errMessage e)) "authentication" ||
  strIncludes (strToLower (errDataMessage e)) "unauthorized" ||
  strIncludes (strToLower (errDataMessage e)) "invalid api key"

/-- `shouldRetry` from `src/llm/gemini-service.js` (lines 169-196). -/
def shouldRetry (e : ApiError) : Bool :=
  if gmRateQuotaCond e then false
  else if gmAuthCond e then false
  else true

/-! ## The retry/fallback ladders

`summarizeWithChatGPT` (chatgpt-service.js lines 252-336) and
`summarizeWithGemini` (src/llm/gemini-service.js lines 246-314) run a fixed
five-rung `retrySequence`.  Each loop iteration issues exactly one API call;
the environment is modelled as a function from the call index to that call's
outcome (a resolved summary value after the `|| null` unwrapping, or a
rejection with an `ApiError`). -/

/-- Outcome of a single `callChatGPTAPI`/`callGeminiAPI` invocation:
either the request resolves and the nested text path is unwrapped to an
optional string, or the request rejects with an error value. -/
inductive CallOutcome where
  | resolved (text : Option String)
  | rejected (e : ApiError)
deriving DecidableEq, Repr

/-- How a ladder run ends. -/
inductive LadderExit where
  | returned (summary : String)
  | threw (msg : String)
  | threwTypeError
deriving DecidableEq, Repr

/-- A completed ladder run: the models passed to the underlying API call,
one per request actually issued, in order; and how the run ended. -/
structure LadderRun where
  calls : List String
  exit : LadderExit
deriving DecidableEq, Repr

/-- Prepend one issued call to a run. -/
def consCall (m : String) (r : LadderRun) : LadderRun :=
  ⟨m :: r.calls, r.exit⟩

/-- The ChatGPT `retrySequence` (model, attempt) pairs, as declared. -/
def chatgptRetrySequence : List (String × Nat) :=
  [("gpt-4o-mini", 1), ("gpt-4o-mini", 2), ("gpt-3.5-turbo", 1),
   ("gpt-3.5-turbo", 2), ("gpt-4o-mini", 3)]

/-- The Gemini `retrySequence` (model, attempt) pairs, as declared. -/
def geminiRetrySequence : List (String × Nat) :=
  [("gemini-2.5-pro", 1), ("gemini-2.5-pro", 2), ("gemini-2.5-flash", 1),
   ("gemini-2.5-flash", 2), ("gemini-2.5-pro", 3)]

/-- The declared Gemini ladder models in rung order. -/
def geminiModels : List String := geminiRetrySequence.map (·.1)

/-- `lastError` update: a rejected call records its error, a resolved call
leaves the previous value. -/
def updLast (o : CallOutcome) (last : Option ApiError) : Option ApiError :=
  match o with
  | .resolved _ => last
  | .rejected e => some e

/-- The exhaustion error thrown by `summarizeWithChatGPT` after the loop. -/
def chatgptExhaustMsg (e : ApiError) : String :=
  match jsOrNull (dataErrMessage e) with
  | some m =>
    "ChatGPT API error after " ++ toString chatgptRetrySequence.length ++
      " attempts: " ++ errStatusMessage e ++ " - " ++ m
  | none =>
    "Failed to generate AI summary after " ++ toString chatgptRetrySequence.length ++
      " attempts: " ++ e.message.getD "undefined"

/-- The exhaustion error thrown by `summarizeWithGemini` after the loop. -/
def geminiExhaustMsg (e : ApiError) : String :=
  match jsOrNull (dataErrMessage e) with
  | some m =>
    "Gemini API error after " ++ toString geminiRetrySequence.length ++
      " attempts: " ++ errStatusMessage e ++ " - " ++ m
  | none =>
    "Failed to generate AI summary after " ++ toString geminiRetrySequence.length ++
      " attempts: " ++ e.message.getD "undefined"

/-- The no-error exhaustion message (every rung resolved empty). -/
def noResponseMsg : String := "Failed to generate AI summary: No response received"

/-- The retry loop of `summarizeWithChatGPT`.  `i` is the index of the next
rung, `remaining` the number of rungs left (`retrySequence.length - i`),
`last` the recorded `lastError`.  Note line 289 of `chatgpt-service.js`
passes the literal `"gpt-4o-mini"` to `callChatGPTAPI` on every rung, not
the rung's declared model. -/
def chatgptLoop (outcomes : Nat → CallOutcome) :
    Nat → Nat → Option ApiError → LadderRun
  | _, 0, last =>
    match last with
    | some e => ⟨[], .threw (chatgptExhaustMsg e)⟩
    | none => ⟨[], .threw noResponseMsg⟩
  | i, r + 1, last =>
    match outcomes i with
    | .resolved t =>
      match jsOrNull t with
      | some s => ⟨["gpt-4o-mini"], .returned s⟩
      | none => consCall "gpt-4o-mini" (chatgptLoop outcomes (i + 1) r last)
    | .rejected e =>
      if !(analyzeError e).shouldRetry && !(analyzeError e).shouldFallback then
        ⟨["gpt-4o-mini"], .threw ("ChatGPT API error: " ++ errDetail e)⟩
      else
        consCall "gpt-4o-mini" (chatgptLoop outcomes (i + 1) r (some e))

/-- `summarizeWithChatGPT`, step 4: run the five-rung ladder. -/
def runChatGPTLadder (outcomes : Nat → CallOutcome) : LadderRun :=
  chatgptLoop outcomes 0 chatgptRetrySequence.length none

/-- The Gemini attempt-log expression
`${error.statusMessage}. ${error.data.error.message}` dereferences
`error.data.error` without optional chaining: accessing a property of an
absent (`undefined`) object throws a `TypeError`. -/
def geminiLogThrows (e : ApiError) : Bool :=
  match e.data with
  | none => true
  | some d =>
    match d.error with
    | none => true
    | some _ => false

/-- The retry loop of `summarizeWithGemini`.  The rung's declared model is
passed to `callGeminiAPI`.  A rejected call first consults `shouldRetry`;
when the error is retryable the attempt log dereferences
`error.data.error.message`, which itself throws when `data` or `data.error`
is absent. -/
def geminiLoop (outcomes : Nat → CallOutcome) :
    Nat → Nat → Option ApiError → LadderRun
  | _, 0, last =>
    match last with
    | some e => ⟨[], .threw (geminiExhaustMsg e)⟩
    | none => ⟨[], .threw noResponseMsg⟩
  | i, r + 1, last =>
    let model := geminiModels.getD i ""
    match outcomes i with
    | .resolved t =>
      match jsOrNull t with
      | some s => ⟨[model], .returned s⟩
      | none => consCall model (geminiLoop outcomes (i + 1) r last)
    | .rejected e =>
      if !(shouldRetry e) then
        ⟨[model], .threw ("Gemini API error: " ++ errDetail e)⟩
      else if geminiLogThrows e then
        ⟨[model], .threwTypeError⟩
      else
        consCall model (geminiLoop outcomes (i + 1) r (some e))

/-- `summarizeWithGemini`, step 4: run the five-rung ladder. -/
def runGeminiLadder (outcomes : Nat → CallOutcome) : LadderRun :=
  geminiLoop outcomes 0 geminiRetrySequence.length none

/-- A rung outcome after which the ChatGPT loop proceeds to the next rung:
an empty/missing summary, or a rejection classified retryable or
fallback-able. -/
def chatgptProceeds : CallOutcome → Bool
  | .resolved t => (jsOrNull t).isNone
  | .rejected e => (analyzeError e).shouldRetry || (analyzeError e).shouldFallback

/-- A rung outcome after which the Gemini loop proceeds to the next rung:
an empty/missing summary, or a retryable rejection whose attempt log does
not itself throw. -/
def geminiProceeds : CallOutcome → Bool
  | .resolved t => (jsOrNull t).isNone
  | .rejected e => shouldRetry e && !(geminiLogThrows e)

/-! ## Ticket-id extraction (`git-log.js` lines 577-591 and 639-648)

A pattern is embedded as its match function on a commit line: `new RegExp`
matching yields the leftmost match (`match[0]`) or nothing.  The single
built-in pattern `/[A-Z]+\d*-\d+/` is implemented concretely; custom
patterns from the config are arbitrary match functions. -/

/-- Greedy match of `[A-Z]+\d*-\d+` anchored at the start of the char list.
Greedy matching is exact here: no backtracking of `[A-Z]+` or `\d*` can
ever make the following literal `-` match. -/
def jiraMatchAt (cs : List Char) : Option (List Char) :=
  let su := cs.span (·.isUpper)
  if su.1.isEmpty then none
  else
    let sd := su.2.span (·.isDigit)
    match sd.2 with
    | '-' :: rest =>
      let sd2 := rest.span (·.isDigit)
      if sd2.1.isEmpty then none
      else some (su.1 ++ sd.1 ++ '-' :: sd2.1)
    | _ => none

/-- Leftmost match of the built-in pattern: try each start position in order. -/
def jiraScan : List Char → Option (List Char)
  | [] => none
  | c :: rest =>
    match jiraMatchAt (c :: rest) with
    | some m => some m
    | none => jiraScan rest

/-- The built-in Jira pattern `/[A-Z]+\d*-\d+/` as a match function. -/
def jiraBuiltInMatch (s : String) : Option String :=
  (jiraScan s.toList).map String.mk

/-- `builtInPatterns` from `git-log.js` line 578. -/
def builtInPatterns : List (String → Option String) := [jiraBuiltInMatch]

/-- `patterns` from `git-log.js` lines 583-591: built-ins, then the
custom patterns taken from the config, in order. -/
def ticketPatterns (custom : List (String → Option String)) :
    List (String → Option String) :=
  builtInPatterns ++ custom

/-- The sentinel ticket id (`git-log.js` line 640). -/
def noTicketId : String := "No ticket ID"

/-- The per-commit pattern loop (`git-log.js` lines 640-648): the first
matching pattern's match is taken as the ticket id, otherwise the
sentinel survives. -/
def extractLoop (commit : String) : List (String → Option String) → String
  | [] => noTicketId
  | p :: rest =>
    match p commit with
    | some m => m
    | none => extractLoop commit rest

/-- Ticket-id extraction for one commit line under the configured custom
patterns. -/
def extractTicketId (custom : List (String → Option String))
    (commit : String) : String :=
  extractLoop commit (ticketPatterns custom)

/-! ## Active-ticket priority sort
(`ticket-api.js` lines 367-380, `src/task-management/jira.js` lines 188-201) -/

/-- An active ticket as assembled by `fetchAllJiraTickets` (ordering-relevant
fields). -/
structure ActiveTicket where
  key : String
  summary : String
  status : String
  priority : String
  priorityId : String
deriving DecidableEq, Repr

/-- The property names every plain object literal inherits from
`Object.prototype` (V8/Node): looking one of these up on the
`priorityOrder` literal yields the inherited member — a truthy function
(for `__proto__`, an object) — not `undefined`. -/
def objectPrototypeKeys : List String :=
  ["constructor", "hasOwnProperty", "isPrototypeOf", "propertyIsEnumerable",
   "toLocaleString", "toString", "valueOf", "__defineGetter__",
   "__defineSetter__", "__lookupGetter__", "__lookupSetter__", "__proto__"]

/-- A JS property-lookup result as the comparator consumes it: an own
numeric rank, an inherited (truthy, non-numeric) `Object.prototype`
member, or `undefined`. -/
inductive JsValue where
  | num (n : Nat)
  | protoMember
  | absent
deriving DecidableEq, Repr

/-- `priorityOrder[p]` with prototype-chain semantics: the five own keys
yield their ranks, an `Object.prototype` key yields the inherited member,
anything else is `undefined`. -/
def priorityOrder (p : String) : JsValue :=
  if p = "Highest" then .num 1
  else if p = "High" then .num 2
  else if p = "Medium" then .num 3
  else if p = "Low" then .num 4
  else if p = "None" then .num 5
  else if p ∈ objectPrototypeKeys then .protoMember
  else .absent

/-- `priorityOrder[p] || 999`: a falsy lookup (`undefined`, or the number
0) is replaced by 999; the truthy inherited member is kept as is. -/
def priorityRank (p : String) : JsValue :=
  match priorityOrder p with
  | .num n => if n = 0 then .num 999 else .num n
  | .protoMember => .protoMember
  | .absent => .num 999

/-- `priorityA - priorityB`: a number when both operands are numbers, NaN
(modelled `none`) when either side is the inherited non-numeric member. -/
def comparatorValue (a b : ActiveTicket) : Option Int :=
  match priorityRank a.priority, priorityRank b.priority with
  | .num x, .num y => some ((x : Int) - (y : Int))
  | _, _ => none

/-- The `SortCompare` wrapper of `Array.prototype.sort`: a NaN comparator
result is coerced to +0, so the pair compares as equal. -/
def sortCompare (a b : ActiveTicket) : Int :=
  (comparatorValue a b).getD 0

/-- The numeric rank of a priority, when the lookup-and-default chain
produced one (every priority off the prototype chain). -/
def numericRank (p : String) : Option Nat :=
  match priorityRank p with
  | .num n => some n
  | _ => none

/-- The numeric rank with a dummy default for the prototype case. -/
def rankNat (p : String) : Nat :=
  (numericRank p).getD 0

/-- The sort's ordering predicate: `a` may stay before `b` when
`SortCompare` is non-positive. -/
def ticketLE (a b : ActiveTicket) : Bool :=
  sortCompare a b ≤ 0

/-- A comparison on numeric ranks only; it agrees with `ticketLE` whenever
both priorities are off the prototype chain. -/
def cleanLE (a b : ActiveTicket) : Bool :=
  rankNat a.priority ≤ rankNat b.priority

/-- `tickets.sort((a, b) => priorityA - priorityB)`: a stable sort driven
by `SortCompare`.  For lists whose priorities avoid the prototype keys the
comparator is consistent and ES2019 stability makes this the unique result
of the source's sort; a NaN-producing comparator is inconsistent, the
specified order becomes implementation-defined, and the embedding fixes
the stable merge sort as one conforming implementation. -/
def sortTickets (ts : List ActiveTicket) : List ActiveTicket :=
  ts.mergeSort ticketLE

/-! ## Single-ticket fetch
(`ticket-api.js` lines 3-106 and `src/task-management/jira.js` lines 3-115)

The HTTP layer is a collaborator: each underlying request either yields a
successful response with a parsed record, a non-success status, or a
network-layer error. -/

/-- Jira ticket fields used by the commit loop display. -/
structure TicketInfo where
  title : String
  description : String
  status : String
  priority : String
  ticketType : String
deriving DecidableEq, Repr

/-- Outcome of the single underlying HTTP request for one ticket. -/
inductive FetchOutcome where
  | httpOk (info : TicketInfo)
  | httpFail (status : Nat)
  | netError
deriving DecidableEq, Repr

/-- Value resolved by `fetchTicketDescription`: a Jira record, or the bare
Zoho subject line. -/
inductive TicketResult where
  | jira (info : TicketInfo)
  | zoho (subject : String)
deriving DecidableEq, Repr

/-- A JS evaluation that either produces a value or throws a `TypeError`. -/
inductive JsResult (α : Type) where
  | ok (a : α)
  | typeError
deriving DecidableEq, Repr

/-- The tracker-relevant slice of the config handed to
`fetchTicketDescription`; `taskManagementSystem` may be absent. -/
structure FetchConfig where
  taskManagementSystem : Option String
deriving DecidableEq, Repr

/-- `fetchJiraTicket`: resolves the parsed record on status 200, `null` on a
non-success status, and `null` on a request error event. -/
def fetchJiraTicket (out : FetchOutcome) : Option TicketInfo :=
  match out with
  | .httpOk info => some info
  | .httpFail _ => none
  | .netError => none

/-- `fetchZohoTicket`: resolves only the subject on 200, `null` otherwise. -/
def fetchZohoTicket (out : FetchOutcome) : Option String :=
  match out with
  | .httpOk info => some info.title
  | .httpFail _ => none
  | .netError => none

/-- `fetchTicketDescription` from `ticket-api.js` lines 92-104: note line 95
reads `config.taskManagementSystem.toLowerCase()` without optional
chaining, which throws a `TypeError` when the field is absent. -/
def fetchTicketDescription_ticketApi (ticketId : String) (cfg : FetchConfig)
    (jiraOut zohoOut : FetchOutcome) : JsResult (Option TicketResult) :=
  if ticketId = noTicketId then .ok none
  else
    match cfg.taskManagementSystem with
    | none => .typeError
    | some sys =>
      let s := strToLower sys
      if s = "jira" then .ok ((fetchJiraTicket jiraOut).map .jira)
      else if s = "zoho" then .ok ((fetchZohoTicket zohoOut).map .zoho)
      else .ok none

/-- `fetchTicketDescription` from `src/task-management/jira.js` lines
103-115: uses `config.taskManagementSystem?.toLowerCase()`, so an absent
field falls through both branches and returns `null`. -/
def fetchTicketDescription_jira (ticketId : String) (cfg : FetchConfig)
    (jiraOut zohoOut : FetchOutcome) : Option TicketResult :=
  if ticketId = noTicketId then none
  else
    match cfg.taskManagementSystem with
    | none => none
    | some sys =>
      let s := strToLower sys
      if s = "jira" then (fetchJiraTicket jiraOut).map .jira
      else if s = "zoho" then (fetchZohoTicket zohoOut).map .zoho
      else none

/-! ## Per-project aggregation (`git-log.js` lines 594-742)

The commit scan (`execSync` + trim/split/filter) is the external
CommitScanner collaborator: per project it either fails (the `catch` at
line 739) or yields the ordered list of non-empty commit lines.  The
single-ticket fetch outcome is given per ticket id (its non-throwing
contract), and the active-ticket listing either resolves a list or
rejects. -/

/-- Outcome of the commit scan for one project. -/
inductive ScanOutcome where
  | failed
  | commitLines (commits : List String)
deriving Repr

/-- The environment of one configured project during the run. -/
structure ProjectEnv where
  name : String
  hasJira : Bool
  scan : ScanOutcome
  ticketFetch : String → Option TicketInfo
  activeList : Except String (List ActiveTicket)

/-- A per-project bundle as pushed onto `projectCommits`. -/
structure Bundle where
  projectName : String
  commits : List String
  activeTickets : List ActiveTicket
deriving Repr

/-- The display/detail line stored per commit (`git-log.js` lines 686-695):
annotated when the ticket fetch produced a record, the raw commit line
otherwise. -/
def commitDetailLine (commit ticketId : String) : Option TicketInfo → String
  | some info =>
    ticketId ++ " [" ++ info.status ++ "] [Priority: " ++ info.priority ++
      "] | " ++ info.title ++ " - " ++ commit
  | none => commit

/-- The per-commit pipeline body: extract the ticket id, fetch (the sentinel
fetches to `null` by the `fetchTicketDescription` contract), and record one
detail line. -/
def projectCommitDetails (custom : List (String → Option String))
    (p : ProjectEnv) (commits : List String) : List String :=
  commits.map (fun c =>
    let tid := extractTicketId custom c
    let info := if tid = noTicketId then none else p.ticketFetch tid
    commitDetailLine c tid info)

/-- The active-ticket step (`git-log.js` lines 700-727): fetched only when
the project has a Jira config; a rejection is caught and leaves the list
empty. -/
def projectActiveTickets (p : ProjectEnv) : List ActiveTicket :=
  if p.hasJira then
    match p.activeList with
    | .ok ts => ts
    | .error _ => []
  else []

/-- Processing of one project (`git-log.js` lines 594-742): the optional
bundle pushed for it and its contribution to `totalCommitCount`. -/
def processProject (custom : List (String → Option String))
    (p : ProjectEnv) : Option Bundle × Nat :=
  match p.scan with
  | .failed => (none, 0)
  | .commitLines commits =>
    if commits.length = 0 then (none, 0)
    else
      let details := projectCommitDetails custom p commits
      let active := projectActiveTickets p
      let bundle :=
        if details.length > 0 || active.length > 0 then
          some ⟨p.name, details, active⟩
        else none
      (bundle, commits.length)

/-- The project loop: bundles in declaration order plus the running
`totalCommitCount`. -/
def mainAggregate (custom : List (String → Option String)) :
    List ProjectEnv → List Bundle × Nat
  | [] => ([], 0)
  | p :: rest =>
    let pr := processProject custom p
    let acc := mainAggregate custom rest
    (pr.1.toList ++ acc.1, pr.2 + acc.2)

/-- Does the scan of `p` contribute at least one commit line? -/
def scanHasCommits (p : ProjectEnv) : Bool :=
  match p.scan with
  | .failed => false
  | .commitLines commits => !commits.isEmpty

/-- Observable outcome of the pipeline tail (`git-log.js` lines 744-822). -/
structure PipelineOutcome where
  printedNoCommits : Bool
  promptBuilt : Bool
  llmInvoked : Bool
  exitCode : Nat
deriving DecidableEq, Repr

/-- The pipeline tail: a zero running total prints the notice and exits 0
before the blocker prompt, prompt build and LLM call; otherwise the run
proceeds (LLM failures are caught at line 820, so the process still ends
normally). -/
def runPipeline (custom : List (String → Option String))
    (ps : List ProjectEnv) : PipelineOutcome :=
  let agg := mainAggregate custom ps
  if agg.2 = 0 then ⟨true, false, false, 0⟩
  else ⟨false, true, true, 0⟩

/-! ## The git command (`git-log.js` lines 497-608) -/

/-- What the `--date` argument scan produced. -/
inductive DateSelection where
  | noFlag
  | range (sinceDate untilDate : String)
  | usageError
deriving DecidableEq, Repr

/-- `args.findIndex(arg => arg === "--date" || arg === "-d")`. -/
def dateFlagIdx (args : List String) : Option Nat :=
  args.findIdx? (fun a => a == "--date" || a == "-d")

/-- The `--date` handling (`git-log.js` lines 502-535): no flag, or a flag
with no following token, leaves the dates unset; a following token is
validated and turned into a since/until day pair by the date collaborator
(`parseDay`, abstracting the format regex, `Date` validity check and
next-day computation), and an invalid token is a fatal usage error. -/
def selectDates (args : List String)
    (parseDay : String → Option (String × String)) : DateSelection :=
  match dateFlagIdx args with
  | none => .noFlag
  | some i =>
    match args.get? (i + 1) with
    | none => .noFlag
    | some ds =>
      match parseDay ds with
      | some su => .range su.1 su.2
      | none => .usageError

/-- The git command construction (`git-log.js` lines 599-608). -/
def buildGitCommand (sel : DateSelection) (author : Option String) : String :=
  let base :=
    match sel with
    | .range s u =>
      "git log --oneline --since=\"" ++ s ++ " 00:00\" --until=\"" ++ u ++
        " 23:59\""
    | _ => "git log --oneline --max-count=5"
  if (author.getD "") ≠ "" then
    base ++ " --author=\"" ++ author.getD "" ++ "\""
  else base

/-- A commit of the underlying repository: its oneline text and its commit
day. -/
structure RepoCommit where
  line : String
  day : Int
deriving DecidableEq, Repr

/-- The external git collaborator, per the CommitScanner contract: with
`--max-count=5` and no date filter git returns the five most recent
commits whatever their dates; with `--since`/`--until` it filters by the
date predicate `dayOk` derived from the range. -/
def gitScan (dayOk : Int → Bool) (sel : DateSelection)
    (history : List RepoCommit) : List String :=
  match sel with
  | .noFlag => (history.take 5).map (·.line)
  | .usageError => []
  | .range _ _ => (history.filter (fun c => dayOk c.day)).map (·.line)

/-! ## Loop bookkeeping helpers used by the ladder theorems -/

/-- Prepend a list of issued calls to a run. -/
def prependCalls (ms : List String) (r : LadderRun) : LadderRun :=
  ⟨ms ++ r.calls, r.exit⟩

/-- The declared Gemini models of rungs `i, i+1, ..., i+k-1`. -/
def geminiModelSlice : Nat → Nat → List String
  | _, 0 => []
  | i, k + 1 => geminiModels.getD i "" :: geminiModelSlice (i + 1) k

/-- The value of `lastError` after the first `k` rungs starting at index
`i`. -/
def lastAfter (outcomes : Nat → CallOutcome) : Nat → Nat → Option ApiError → Option ApiError
  | _, 0, last => last
  | i, k + 1, last => lastAfter outcomes (i + 1) k (updLast (outcomes i) last)

/-! ## Concrete run environments used by the closed theorems -/

/-- A Gemini rejection whose structured message indicates billing
exhaustion (and nothing else). -/
def gmBillingErr : ApiError :=
  ⟨none, some "Bad Request",
    some ⟨some ⟨some "Billing hard limit has been reached", none⟩⟩⟩

/-- First rung rejects with the billing error, later rungs resolve. -/
def billingOutcomes : Nat → CallOutcome := fun i =>
  if i = 0 then .rejected gmBillingErr else .resolved (some "ok")

/-- A rejection whose structured message mentions an unknown model. -/
def modelErr : ApiError :=
  ⟨none, some "Not Found",
    some ⟨some ⟨some "The requested model does not exist", some "model_not_found"⟩⟩⟩

/-- First rung rejects with the model error, later rungs resolve. -/
def modelErrOutcomes : Nat → CallOutcome := fun i =>
  if i = 0 then .rejected modelErr else .resolved (some "ok")

/-- A retryable rejection carrying `data.error` but no `message` field
inside it. -/
def gmMsglessErr : ApiError :=
  ⟨none, some "Internal Server Error", some ⟨some ⟨none, none⟩⟩⟩

/-- First rung rejects with the message-less structured error, later rungs
resolve. -/
def msglessOutcomes : Nat → CallOutcome := fun i =>
  if i = 0 then .rejected gmMsglessErr else .resolved (some "ok")

/-- A plain network `Error` (no `statusCode`, no `data`). -/
def plainNetErr : ApiError :=
  ⟨some "Failed to make request: socket hang up", none, none⟩

/-- A structured retryable server-side error. -/
def overloadedErr : ApiError :=
  ⟨none, some "Service Unavailable",
    some ⟨some ⟨some "The service is currently overloaded", none⟩⟩⟩

/-- A structured quota-exhaustion error. -/
def quotaErr : ApiError :=
  ⟨none, some "Too Many Requests",
    some ⟨some ⟨some "You exceeded your current quota", some "insufficient_quota"⟩⟩⟩

/-- Second rung hits the quota error; the first resolves empty. -/
def quotaAtSecondOutcomes : Nat → CallOutcome := fun i =>
  if i = 0 then .resolved none else .rejected quotaErr

/-- A custom config pattern standing in for a user regex: matches the
team-specific id when present. -/
def customPat : String → Option String := fun s =>
  if strIncludes s "AY1Q-T296" then some "AY1Q-T296" else none

/-- Sample active tickets: two equal-rank `Low` tickets around an
unrecognized priority and a `Highest` one. -/
def tLowOne : ActiveTicket := ⟨"KAN-1", "first low", "To Do", "Low", "4"⟩

/-- A ticket whose priority value is not in the rank map. -/
def tBogus : ActiveTicket := ⟨"KAN-2", "odd", "To Do", "Bogus", "10012"⟩

/-- A highest-priority ticket. -/
def tHighest : ActiveTicket := ⟨"KAN-3", "urgent", "In Progress", "Highest", "1"⟩

/-- A second low-priority ticket, after `tLowOne` in tracker order. -/
def tLowTwo : ActiveTicket := ⟨"KAN-4", "second low", "To Do", "Low", "4"⟩

/-- The tracker-order sample list. -/
def sampleTickets : List ActiveTicket := [tLowOne, tBogus, tHighest, tLowTwo]

/-- A ticket whose priority value is the name of an inherited
`Object.prototype` member. -/
def tProto : ActiveTicket := ⟨"KAN-9", "sneaky", "To Do", "toString", "?"⟩

/-- A project whose scan finds no commits but whose tracker lists one
active ticket. -/
def zeroCommitProject : ProjectEnv :=
  ⟨"alpha", true, .commitLines [], fun _ => none, .ok [tHighest]⟩

/-- A project whose commit scan fails. -/
def failedScanProject : ProjectEnv :=
  ⟨"beta", false, .failed, fun _ => none, .ok []⟩

/-- A project with two commits, one carrying a built-in-pattern ticket id. -/
def twoCommitProject : ProjectEnv :=
  ⟨"gamma", true,
    .commitLines ["PROJ-1 fix bug", "update readme"],
    fun tid => if tid = "PROJ-1" then
      some ⟨"Fix the bug", "No description", "In Progress", "High", "Bug"⟩
    else none,
    .ok [tHighest]⟩

/-- Sample repository history, most recent first, with commit days. -/
def sampleHistory : List RepoCommit :=
  [⟨"aaa fix login", 20⟩, ⟨"bbb add tests", 19⟩, ⟨"ccc refactor", 15⟩,
   ⟨"ddd docs", 12⟩, ⟨"eee init", 3⟩, ⟨"fff prototype", 1⟩]

/-! # Theorems

## Generic facts about the retry loops -/

theorem chatgptLoop_proceed (outcomes : Nat → CallOutcome) (i r : Nat)
    (last : Option ApiError) (h : chatgptProceeds (outcomes i) = true) :
    chatgptLoop outcomes i (r + 1) last =
      consCall "gpt-4o-mini"
        (chatgptLoop outcomes (i + 1) r (updLast (outcomes i) last)) := by
  cases ho : outcomes i with
  | resolved t =>
    have hj : jsOrNull t = none := by
      rw [ho] at h
      simpa [chatgptProceeds, Option.isNone_iff_eq_none] using h
    simp [chatgptLoop, ho, hj, updLast]
  | rejected e =>
    rw [ho] at h
    have hcond :
        (!(analyzeError e).shouldRetry && !(analyzeError e).shouldFallback) = false := by
      cases hx : (analyzeError e).shouldRetry <;>
        cases hy : (analyzeError e).shouldFallback <;>
          simp_all [chatgptProceeds]
    simp [chatgptLoop, ho, hcond, updLast]

theorem geminiLoop_proceed (outcomes : Nat → CallOutcome) (i r : Nat)
    (last : Option ApiError) (h : geminiProceeds (outcomes i) = true) :
    geminiLoop outcomes i (r + 1) last =
      consCall (geminiModels.getD i "")
        (geminiLoop outcomes (i + 1) r (updLast (outcomes i) last)) := by
  cases ho : outcomes i with
  | resolved t =>
    have hj : jsOrNull t = none := by
      rw [ho] at h
      simpa [geminiProceeds, Option.isNone_iff_eq_none] using h
    simp [geminiLoop, ho, hj, updLast]
  | rejected e =>
    rw [ho] at h
    simp only [geminiProceeds, Bool.and_eq_true, Bool.not_eq_true'] at h
    simp [geminiLoop, ho, h.1, h.2, updLast]

theorem chatgptLoop_skip (outcomes : Nat → CallOutcome) :
    ∀ (k i r : Nat) (last : Option ApiError), k ≤ r →
      (∀ j, j < k → chatgptProceeds (outcomes (i + j)) = true) →
      chatgptLoop outcomes i r last =
        prependCalls (List.replicate k "gpt-4o-mini")
          (chatgptLoop outcomes (i + k) (r - k) (lastAfter outcomes i k last)) := by
  intro k
  induction k with
  | zero => intro i r last _ _; simp [prependCalls, lastAfter]
  | succ k ih =>
    intro i r last hkr hp
    cases r with
    | zero => omega
    | succ r =>
      rw [chatgptLoop_proceed outcomes i r last (by simpa using hp 0 (by omega))]
      rw [ih (i + 1) r (updLast (outcomes i) last) (by omega)
        (fun j hj => by
          have h2 := hp (j + 1) (by omega)
          have he : i + 1 + j = i + (j + 1) := by omega
          rw [he]; exact h2)]
      have he : i + 1 + k = i + (k + 1) := by omega
      have hr : r + 1 - (k + 1) = r - k := by omega
      simp [consCall, prependCalls, List.replicate_succ, lastAfter, he, hr]

theorem geminiLoop_skip (outcomes : Nat → CallOutcome) :
    ∀ (k i r : Nat) (last : Option ApiError), k ≤ r →
      (∀ j, j < k → geminiProceeds (outcomes (i + j)) = true) →
      geminiLoop outcomes i r last =
        prependCalls (geminiModelSlice i k)
          (geminiLoop outcomes (i + k) (r - k) (lastAfter outcomes i k last)) := by
  intro k
  induction k with
  | zero => intro i r last _ _; simp [prependCalls, lastAfter, geminiModelSlice]
  | succ k ih =>
    intro i r last hkr hp
    cases r with
    | zero => omega
    | succ r =>
      rw [geminiLoop_proceed outcomes i r last (by simpa using hp 0 (by omega))]
      rw [ih (i + 1) r (updLast (outcomes i) last) (by omega)
        (fun j hj => by
          have h2 := hp (j + 1) (by omega)
          have he : i + 1 + j = i + (j + 1) := by omega
          rw [he]; exact h2)]
      have he : i + 1 + k = i + (k + 1) := by omega
      have hr : r + 1 - (k + 1) = r - k := by omega
      simp [consCall, prependCalls, geminiModelSlice, lastAfter, he, hr]

theorem chatgptLoop_return (outcomes : Nat → CallOutcome) (i r : Nat)
    (last : Option ApiError) (t : Option String) (s : String)
    (hi : outcomes i = .resolved t) (hs : jsOrNull t = some s) :
    chatgptLoop outcomes i (r + 1) last = ⟨["gpt-4o-mini"], .returned s⟩ := by
  simp [chatgptLoop, hi, hs]

theorem geminiLoop_return (outcomes : Nat → CallOutcome) (i r : Nat)
    (last : Option ApiError) (t : Option String) (s : String)
    (hi : outcomes i = .resolved t) (hs : jsOrNull t = some s) :
    geminiLoop outcomes i (r + 1) last =
      ⟨[geminiModels.getD i ""], .returned s⟩ := by
  simp [geminiLoop, hi, hs]

theorem chatgptLoop_abort (outcomes : Nat → CallOutcome) (i r : Nat)
    (last : Option ApiError) (e : ApiError)
    (hi : outcomes i = .rejected e) (ha : analyzeError e = ⟨false, false⟩) :
    chatgptLoop outcomes i (r + 1) last =
      ⟨["gpt-4o-mini"], .threw ("ChatGPT API error: " ++ errDetail e)⟩ := by
  simp [chatgptLoop, hi, ha]

theorem geminiLoop_abort (outcomes : Nat → CallOutcome) (i r : Nat)
    (last : Option ApiError) (e : ApiError)
    (hi : outcomes i = .rejected e) (ha : shouldRetry e = false) :
    geminiLoop outcomes i (r + 1) last =
      ⟨[geminiModels.getD i ""], .threw ("Gemini API error: " ++ errDetail e)⟩ := by
  simp [geminiLoop, hi, ha]

theorem geminiLoop_typeError (outcomes : Nat → CallOutcome) (i r : Nat)
    (last : Option ApiError) (e : ApiError)
    (hi : outcomes i = .rejected e) (ha : shouldRetry e = true)
    (hl : geminiLogThrows e = true) :
    geminiLoop outcomes i (r + 1) last =
      ⟨[geminiModels.getD i ""], .threwTypeError⟩ := by
  simp [geminiLoop, hi, ha, hl]

theorem chatgptLoop_len (outcomes : Nat → CallOutcome) :
    ∀ (r i : Nat) (last : Option ApiError),
      (chatgptLoop outcomes i r last).calls.length ≤ r := by
  intro r
  induction r with
  | zero => intro i last; cases last <;> simp [chatgptLoop]
  | succ r ih =>
    intro i last
    cases ho : outcomes i with
    | resolved t =>
      cases hs : jsOrNull t with
      | none =>
        have := ih (i + 1) last
        simp [chatgptLoop, ho, hs, consCall]
        omega
      | some s => simp [chatgptLoop, ho, hs]
    | rejected e =>
      by_cases hc :
          (!(analyzeError e).shouldRetry && !(analyzeError e).shouldFallback) = true
      · simp [chatgptLoop, ho, hc]
      · have := ih (i + 1) (some e)
        simp only [Bool.not_eq_true] at hc
        simp [chatgptLoop, ho, hc, consCall]
        omega

theorem geminiLoop_len (outcomes : Nat → CallOutcome) :
    ∀ (r i : Nat) (last : Option ApiError),
      (geminiLoop outcomes i r last).calls.length ≤ r := by
  intro r
  induction r with
  | zero => intro i last; cases last <;> simp [geminiLoop]
  | succ r ih =>
    intro i last
    cases ho : outcomes i with
    | resolved t =>
      cases hs : jsOrNull t with
      | none =>
        have := ih (i + 1) last
        simp [geminiLoop, ho, hs, consCall]
        omega
      | some s => simp [geminiLoop, ho, hs]
    | rejected e =>
      by_cases hc : shouldRetry e = false
      · simp [geminiLoop, ho, hc]
      · simp only [Bool.not_eq_false] at hc
        by_cases hl : geminiLogThrows e = true
        · simp [geminiLoop, ho, hc, hl]
        · have := ih (i + 1) (some e)
          simp only [Bool.not_eq_true] at hl
          simp [geminiLoop, ho, hc, hl, consCall]
          omega

theorem lastAfter_no_reject (outcomes : Nat → CallOutcome) :
    ∀ (k i : Nat) (last : Option ApiError),
      (∀ j, j < k → ∀ e, outcomes (i + j) ≠ .rejected e) →
      lastAfter outcomes i k last = last := by
  intro k
  induction k with
  | zero => intro i last _; simp [lastAfter]
  | succ k ih =>
    intro i last h
    have hu : updLast (outcomes i) last = last := by
      cases ho : outcomes i with
      | resolved t => simp [updLast]
      | rejected e => exact absurd ho (by simpa using h 0 (by omega) e)
    rw [lastAfter, hu]
    exact ih (i + 1) last (fun j hj e => by
      have h2 := h (j + 1) (by omega) e
      have he : i + 1 + j = i + (j + 1) := by omega
      rw [he]; exact h2)

theorem lastAfter_append (outcomes : Nat → CallOutcome) :
    ∀ (a : Nat) (b i : Nat) (last : Option ApiError),
      lastAfter outcomes i (a + b) last =
        lastAfter outcomes (i + a) b (lastAfter outcomes i a last) := by
  intro a
  induction a with
  | zero => intro b i last; simp [lastAfter]
  | succ a ih =>
    intro b i last
    have he : a + 1 + b = (a + b) + 1 := by omega
    rw [he]
    show lastAfter outcomes (i + 1) (a + b) (updLast (outcomes i) last) = _
    rw [ih b (i + 1) (updLast (outcomes i) last)]
    have h2 : i + 1 + a = i + (a + 1) := by omega
    rw [h2]
    rfl

theorem lastAfter_of_last_reject (outcomes : Nat → CallOutcome)
    (k n i : Nat) (last : Option ApiError) (e : ApiError)
    (hk : k < n) (hke : outcomes (i + k) = .rejected e)
    (hafter : ∀ j, k < j → j < n → ∀ e2, outcomes (i + j) ≠ .rejected e2) :
    lastAfter outcomes i n last = some e := by
  have hn : n = (k + 1) + (n - (k + 1)) := by omega
  rw [hn, lastAfter_append outcomes (k + 1) (n - (k + 1)) i last]
  have hmid : lastAfter outcomes i (k + 1) last = some e := by
    have hk1 : (k + 1) = k + 1 := rfl
    rw [lastAfter_append outcomes k 1 i last]
    show updLast (outcomes (i + k)) (lastAfter outcomes i k last) = some e
    rw [hke]; rfl
  rw [hmid]
  exact lastAfter_no_reject outcomes (n - (k + 1)) (i + (k + 1)) (some e)
    (fun j hj e2 => by
      have h2 := hafter ((k + 1) + j) (by omega) (by omega) e2
      have he : i + (k + 1) + j = i + ((k + 1) + j) := by omega
      rw [he]; exact h2)

theorem analyzeError_abort_iff (e : ApiError) :
    analyzeError e = ⟨false, false⟩ ↔
      (cgQuotaCond e = true ∨ cgKeyCond e = true ∨
        (cgRateCond e = true ∧ cgModelCond e = false)) := by
  by_cases h1 : cgQuotaCond e = true <;>
    by_cases h2 : cgKeyCond e = true <;>
      by_cases h3 : cgModelCond e = true <;>
        by_cases h4 : cgRateCond e = true <;>
          simp_all [analyzeError]

theorem shouldRetry_false_iff (e : ApiError) :
    shouldRetry e = false ↔ (gmRateQuotaCond e = true ∨ gmAuthCond e = true) := by
  by_cases h1 : gmRateQuotaCond e = true <;>
    by_cases h2 : gmAuthCond e = true <;>
      simp_all [shouldRetry]

theorem geminiLogThrows_iff (e : ApiError) :
    geminiLogThrows e = true ↔
      (e.data = none ∨ ∃ d, e.data = some d ∧ d.error = none) := by
  cases hd : e.data with
  | none => simp [geminiLogThrows, hd]
  | some d =>
    cases he : d.error with
    | none => simp [geminiLogThrows, hd, he]
    | some pe => simp [geminiLogThrows, hd, he]

theorem geminiModelSlice_snoc :
    ∀ (k i : Nat),
      geminiModelSlice i k ++ [geminiModels.getD (i + k) ""] =
        geminiModelSlice i (k + 1) := by
  intro k
  induction k with
  | zero => intro i; simp [geminiModelSlice]
  | succ k ih =>
    intro i
    have he : i + (k + 1) = (i + 1) + k := by omega
    calc geminiModelSlice i (k + 1) ++ [geminiModels.getD (i + (k + 1)) ""]
        = geminiModels.getD i "" ::
            (geminiModelSlice (i + 1) k ++ [geminiModels.getD ((i + 1) + k) ""]) := by
          simp [geminiModelSlice, he]
      _ = geminiModels.getD i "" :: geminiModelSlice (i + 1) (k + 1) := by
          rw [ih (i + 1)]
      _ = geminiModelSlice i (k + 2) := by simp [geminiModelSlice]

theorem chatgptLoop_head (outcomes : Nat → CallOutcome) (i r : Nat)
    (last : Option ApiError) :
    ∃ tail, (chatgptLoop outcomes i (r + 1) last).calls = "gpt-4o-mini" :: tail := by
  cases ho : outcomes i with
  | resolved t =>
    cases hs : jsOrNull t with
    | none =>
      exact ⟨(chatgptLoop outcomes (i + 1) r last).calls,
        by simp [chatgptLoop, ho, hs, consCall]⟩
    | some s => exact ⟨[], by simp [chatgptLoop, ho, hs]⟩
  | rejected e =>
    by_cases hc :
        (!(analyzeError e).shouldRetry && !(analyzeError e).shouldFallback) = true
    · exact ⟨[], by simp [chatgptLoop, ho, hc]⟩
    · simp only [Bool.not_eq_true] at hc
      exact ⟨(chatgptLoop outcomes (i + 1) r (some e)).calls,
        by simp [chatgptLoop, ho, hc, consCall]⟩

theorem geminiLoop_head (outcomes : Nat → CallOutcome) (i r : Nat)
    (last : Option ApiError) :
    ∃ tail,
      (geminiLoop outcomes i (r + 1) last).calls =
        geminiModels.getD i "" :: tail := by
  cases ho : outcomes i with
  | resolved t =>
    cases hs : jsOrNull t with
    | none =>
      exact ⟨(geminiLoop outcomes (i + 1) r last).calls,
        by simp [geminiLoop, ho, hs, consCall]⟩
    | some s => exact ⟨[], by simp [geminiLoop, ho, hs]⟩
  | rejected e =>
    by_cases hc : shouldRetry e = false
    · exact ⟨[], by simp [geminiLoop, ho, hc]⟩
    · simp only [Bool.not_eq_false] at hc
      by_cases hl : geminiLogThrows e = true
      · exact ⟨[], by simp [geminiLoop, ho, hc, hl]⟩
      · simp only [Bool.not_eq_true] at hl
        exact ⟨(geminiLoop outcomes (i + 1) r (some e)).calls,
          by simp [geminiLoop, ho, hc, hl, consCall]⟩

theorem chatgptLoop_calls_all (outcomes : Nat → CallOutcome) :
    ∀ (r i : Nat) (last : Option ApiError) (m : String),
      m ∈ (chatgptLoop outcomes i r last).calls → m = "gpt-4o-mini" := by
  intro r
  induction r with
  | zero => intro i last m hm; cases last <;> simp [chatgptLoop] at hm
  | succ r ih =>
    intro i last m hm
    cases ho : outcomes i with
    | resolved t =>
      cases hs : jsOrNull t with
      | none =>
        rw [chatgptLoop] at hm
        simp only [ho, hs, consCall] at hm
        rcases List.mem_cons.mp hm with h | h
        · exact h
        · exact ih (i + 1) last m h
      | some s =>
        rw [chatgptLoop] at hm
        simp only [ho, hs] at hm
        simpa using hm
    | rejected e =>
      by_cases hc :
          (!(analyzeError e).shouldRetry && !(analyzeError e).shouldFallback) = true
      · rw [chatgptLoop] at hm
        simp only [ho, hc, if_true] at hm
        simpa using hm
      · simp only [Bool.not_eq_true] at hc
        rw [chatgptLoop] at hm
        simp only [ho, hc, Bool.false_eq_true, if_false, consCall] at hm
        rcases List.mem_cons.mp hm with h | h
        · exact h
        · exact ih (i + 1) (some e) m h

/-! ## C1: fatal-class errors and the ladder abort -/

/-- C1 counterexample: `gmBillingErr` carries a structured message that
indicates billing exhaustion (case-insensitively), yet the Gemini
classifier marks it retryable, so the ladder invokes a second rung instead
of aborting after the single attempt with a typed error. -/
theorem C1_counterexample :
    strIncludes (strToLower (errDataMessage gmBillingErr)) "billing" = true ∧
    shouldRetry gmBillingErr = true ∧
    runGeminiLadder billingOutcomes =
      ⟨["gemini-2.5-pro", "gemini-2.5-pro"], .returned "ok"⟩ := by
  decide

/-- C1 (amended): an error classified fatal by the ladder's own classifier
aborts the whole ladder right after its rung and throws a typed error.
The ChatGPT fatal classes are quota/billing indicators, invalid-key or
unauthorized indicators, and rate-limit indicators not accompanied by a
"model" indicator; the Gemini fatal classes are rate-limit/quota and
unauthorized/invalid-key/authentication indicators in the message or the
structured message — Gemini consults neither "billing" nor any structured
error code. -/
theorem C1_fatal_class_aborts_ladder :
    (∀ e, analyzeError e = ⟨false, false⟩ ↔
      (cgQuotaCond e = true ∨ cgKeyCond e = true ∨
        (cgRateCond e = true ∧ cgModelCond e = false))) ∧
    (∀ e, shouldRetry e = false ↔
      (gmRateQuotaCond e = true ∨ gmAuthCond e = true)) ∧
    (∀ (outcomes : Nat → CallOutcome) (k : Nat) (e : ApiError),
      k < chatgptRetrySequence.length →
      (∀ j, j < k → chatgptProceeds (outcomes j) = true) →
      outcomes k = .rejected e →
      analyzeError e = ⟨false, false⟩ →
      runChatGPTLadder outcomes =
        ⟨List.replicate (k + 1) "gpt-4o-mini",
          .threw ("ChatGPT API error: " ++ errDetail e)⟩) ∧
    (∀ (outcomes : Nat → CallOutcome) (k : Nat) (e : ApiError),
      k < geminiRetrySequence.length →
      (∀ j, j < k → geminiProceeds (outcomes j) = true) →
      outcomes k = .rejected e →
      shouldRetry e = false →
      runGeminiLadder outcomes =
        ⟨geminiModelSlice 0 (k + 1),
          .threw ("Gemini API error: " ++ errDetail e)⟩) := by
  refine ⟨analyzeError_abort_iff, shouldRetry_false_iff, ?_, ?_⟩
  · intro outcomes k e hk hp hke ha
    have hk5 : k < 5 := hk
    show chatgptLoop outcomes 0 5 none = _
    rw [chatgptLoop_skip outcomes k 0 5 none (by omega)
      (fun j hj => by simpa using hp j hj)]
    have hr : 5 - k = (4 - k) + 1 := by omega
    rw [hr, chatgptLoop_abort outcomes (0 + k) (4 - k) _ e
      (by simpa using hke) ha]
    simp [prependCalls, List.replicate_succ']
  · intro outcomes k e hk hp hke ha
    have hk5 : k < 5 := hk
    show geminiLoop outcomes 0 5 none = _
    rw [geminiLoop_skip outcomes k 0 5 none (by omega)
      (fun j hj => by simpa using hp j hj)]
    have hr : 5 - k = (4 - k) + 1 := by omega
    rw [hr, geminiLoop_abort outcomes (0 + k) (4 - k) _ e
      (by simpa using hke) ha]
    have hsnoc := geminiModelSlice_snoc k 0
    simp only [Nat.zero_add] at hsnoc
    simp [prependCalls, ← hsnoc]

/-- C1 witness: the quota error aborts the ChatGPT ladder on its second
rung (after one empty first response) and the Gemini ladder on its first
rung. -/
theorem C1_witness :
    analyzeError quotaErr = ⟨false, false⟩ ∧
    runChatGPTLadder quotaAtSecondOutcomes =
      ⟨List.replicate 2 "gpt-4o-mini",
        .threw ("ChatGPT API error: " ++ errDetail quotaErr)⟩ ∧
    runGeminiLadder (fun _ => .rejected quotaErr) =
      ⟨geminiModelSlice 0 1, .threw ("Gemini API error: " ++ errDetail quotaErr)⟩ := by
  refine ⟨by decide, ?_, ?_⟩
  · exact C1_fatal_class_aborts_ladder.2.2.1 quotaAtSecondOutcomes 1 quotaErr
      (by decide)
      (fun j hj => by
        have hj0 : j = 0 := by omega
        subst hj0; decide)
      (by decide) (by decide)
  · exact C1_fatal_class_aborts_ladder.2.2.2 (fun _ => .rejected quotaErr) 0 quotaErr
      (by decide)
      (fun j hj => absurd hj (by omega))
      rfl (by decide)

/-! ## C2: model-class failures and the fallback step -/

/-- C2 counterexample: after a model-class failure on the first rung, both
ladders issue their second request to the very model that just failed —
the Gemini ladder's first two rungs both declare `gemini-2.5-pro`, and the
ChatGPT implementation passes `gpt-4o-mini` on every call — so the next
request is not a distinct model. -/
theorem C2_counterexample :
    cgModelCond modelErr = true ∧
    analyzeError modelErr = ⟨false, true⟩ ∧
    shouldRetry modelErr = true ∧
    runGeminiLadder modelErrOutcomes =
      ⟨["gemini-2.5-pro", "gemini-2.5-pro"], .returned "ok"⟩ ∧
    runChatGPTLadder modelErrOutcomes =
      ⟨["gpt-4o-mini", "gpt-4o-mini"], .returned "ok"⟩ := by
  decide

/-- C2 (amended): a rung failure that mentions a model is not retried on
its own rung; the orchestrator advances to the next rung of the fixed
ladder and issues exactly one request to that rung's declared model —
which may repeat the model that just failed, since both declared ladders
open with the primary model twice ([pro, pro, flash, flash, pro]); the
ChatGPT implementation moreover passes the literal `"gpt-4o-mini"` to the
API on every rung. -/
theorem C2_model_error_falls_back :
    geminiModels = ["gemini-2.5-pro", "gemini-2.5-pro", "gemini-2.5-flash",
      "gemini-2.5-flash", "gemini-2.5-pro"] ∧
    (∀ (outcomes : Nat → CallOutcome) (m : String),
      m ∈ (runChatGPTLadder outcomes).calls → m = "gpt-4o-mini") ∧
    (∀ (outcomes : Nat → CallOutcome) (k : Nat) (e : ApiError),
      k + 1 < chatgptRetrySequence.length →
      (∀ j, j < k → chatgptProceeds (outcomes j) = true) →
      outcomes k = .rejected e →
      analyzeError e = ⟨false, true⟩ →
      ∃ tail, (runChatGPTLadder outcomes).calls =
        List.replicate (k + 1) "gpt-4o-mini" ++ "gpt-4o-mini" :: tail) ∧
    (∀ (outcomes : Nat → CallOutcome) (k : Nat) (e : ApiError),
      k + 1 < geminiRetrySequence.length →
      (∀ j, j < k → geminiProceeds (outcomes j) = true) →
      outcomes k = .rejected e →
      cgModelCond e = true → shouldRetry e = true → geminiLogThrows e = false →
      ∃ tail, (runGeminiLadder outcomes).calls =
        geminiModelSlice 0 (k + 1) ++ geminiModels.getD (k + 1) "" :: tail) := by
  refine ⟨rfl, ?_, ?_, ?_⟩
  · intro outcomes m hm
    exact chatgptLoop_calls_all outcomes chatgptRetrySequence.length 0 none m hm
  · intro outcomes k e hk hp hke ha
    have hk5 : k + 1 < 5 := hk
    have hpk : ∀ j, j < k + 1 → chatgptProceeds (outcomes j) = true := by
      intro j hj
      rcases Nat.lt_succ_iff_lt_or_eq.mp hj with h | h
      · exact hp j h
      · subst h; simp [chatgptProceeds, hke, ha]
    have hskip := chatgptLoop_skip outcomes (k + 1) 0 5 none (by omega)
      (fun j hj => by simpa using hpk j hj)
    have hrem : 5 - (k + 1) = (3 - k) + 1 := by omega
    obtain ⟨tail, htail⟩ :=
      chatgptLoop_head outcomes (0 + (k + 1)) (3 - k)
        (lastAfter outcomes 0 (k + 1) none)
    simp only [Nat.zero_add] at htail
    refine ⟨tail, ?_⟩
    show (chatgptLoop outcomes 0 5 none).calls = _
    rw [hskip, hrem]
    simp [prependCalls, htail]
  · intro outcomes k e hk hp hke hm ha hl
    have hk5 : k + 1 < 5 := hk
    have hpk : ∀ j, j < k + 1 → geminiProceeds (outcomes j) = true := by
      intro j hj
      rcases Nat.lt_succ_iff_lt_or_eq.mp hj with h | h
      · exact hp j h
      · subst h; simp [geminiProceeds, hke, ha, hl]
    have hskip := geminiLoop_skip outcomes (k + 1) 0 5 none (by omega)
      (fun j hj => by simpa using hpk j hj)
    have hrem : 5 - (k + 1) = (3 - k) + 1 := by omega
    obtain ⟨tail, htail⟩ :=
      geminiLoop_head outcomes (0 + (k + 1)) (3 - k)
        (lastAfter outcomes 0 (k + 1) none)
    simp only [Nat.zero_add] at htail
    refine ⟨tail, ?_⟩
    show (geminiLoop outcomes 0 5 none).calls = _
    rw [hskip, hrem]
    simp [prependCalls, htail]

/-- C2 witness: with a model-not-found failure on the first rung, both
ladders issue a second request; the Gemini ladder's second request goes to
`gemini-2.5-pro` again. -/
theorem C2_witness :
    (∃ tail, (runChatGPTLadder modelErrOutcomes).calls =
      List.replicate 1 "gpt-4o-mini" ++ "gpt-4o-mini" :: tail) ∧
    (∃ tail, (runGeminiLadder modelErrOutcomes).calls =
      geminiModelSlice 0 1 ++ geminiModels.getD 1 "" :: tail) := by
  constructor
  · exact C2_model_error_falls_back.2.2.1 modelErrOutcomes 0 modelErr
      (by decide) (fun j hj => absurd hj (by omega)) rfl (by decide)
  · exact C2_model_error_falls_back.2.2.2 modelErrOutcomes 0 modelErr
      (by decide) (fun j hj => absurd hj (by omega)) rfl
      (by decide) (by decide) (by decide)

/-! ## C3: ladder termination and the terminal error -/

/-- C3: each orchestrator issues at most five requests (the length of its
fixed `retrySequence`), returns right away on the first rung that yields a
non-empty text, and, when every rung has been consumed with at least one
rejection observed, throws the terminal error built from the last observed
error. -/
theorem C3_ladder_termination :
    (∀ outcomes : Nat → CallOutcome,
      (runChatGPTLadder outcomes).calls.length ≤ chatgptRetrySequence.length) ∧
    (∀ outcomes : Nat → CallOutcome,
      (runGeminiLadder outcomes).calls.length ≤ geminiRetrySequence.length) ∧
    (∀ (outcomes : Nat → CallOutcome) (k : Nat) (t : Option String) (s : String),
      k < chatgptRetrySequence.length →
      (∀ j, j < k → chatgptProceeds (outcomes j) = true) →
      outcomes k = .resolved t → jsOrNull t = some s →
      runChatGPTLadder outcomes =
        ⟨List.replicate (k + 1) "gpt-4o-mini", .returned s⟩) ∧
    (∀ (outcomes : Nat → CallOutcome) (k : Nat) (t : Option String) (s : String),
      k < geminiRetrySequence.length →
      (∀ j, j < k → geminiProceeds (outcomes j) = true) →
      outcomes k = .resolved t → jsOrNull t = some s →
      runGeminiLadder outcomes = ⟨geminiModelSlice 0 (k + 1), .returned s⟩) ∧
    (∀ (outcomes : Nat → CallOutcome) (k : Nat) (e : ApiError),
      (∀ j, j < chatgptRetrySequence.length → chatgptProceeds (outcomes j) = true) →
      k < chatgptRetrySequence.length →
      outcomes k = .rejected e →
      (∀ j, k < j → j < chatgptRetrySequence.length →
        ∀ e2, outcomes j ≠ .rejected e2) →
      runChatGPTLadder outcomes =
        ⟨List.replicate chatgptRetrySequence.length "gpt-4o-mini",
          .threw (chatgptExhaustMsg e)⟩) ∧
    (∀ (outcomes : Nat → CallOutcome) (k : Nat) (e : ApiError),
      (∀ j, j < geminiRetrySequence.length → geminiProceeds (outcomes j) = true) →
      k < geminiRetrySequence.length →
      outcomes k = .rejected e →
      (∀ j, k < j → j < geminiRetrySequence.length →
        ∀ e2, outcomes j ≠ .rejected e2) →
      runGeminiLadder outcomes =
        ⟨geminiModelSlice 0 geminiRetrySequence.length,
          .threw (geminiExhaustMsg e)⟩) := by
  refine ⟨?_, ?_, ?_, ?_, ?_, ?_⟩
  · intro outcomes
    exact chatgptLoop_len outcomes chatgptRetrySequence.length 0 none
  · intro outcomes
    exact geminiLoop_len outcomes geminiRetrySequence.length 0 none
  · intro outcomes k t s hk hp hkt hs
    have hk5 : k < 5 := hk
    show chatgptLoop outcomes 0 5 none = _
    rw [chatgptLoop_skip outcomes k 0 5 none (by omega)
      (fun j hj => by simpa using hp j hj)]
    have hrem : 5 - k = (4 - k) + 1 := by omega
    rw [hrem, chatgptLoop_return outcomes (0 + k) (4 - k) _ t s
      (by simpa using hkt) hs]
    simp [prependCalls, List.replicate_succ']
  · intro outcomes k t s hk hp hkt hs
    have hk5 : k < 5 := hk
    show geminiLoop outcomes 0 5 none = _
    rw [geminiLoop_skip outcomes k 0 5 none (by omega)
      (fun j hj => by simpa using hp j hj)]
    have hrem : 5 - k = (4 - k) + 1 := by omega
    rw [hrem, geminiLoop_return outcomes (0 + k) (4 - k) _ t s
      (by simpa using hkt) hs]
    have hsnoc := geminiModelSlice_snoc k 0
    simp only [Nat.zero_add] at hsnoc
    simp [prependCalls, ← hsnoc]
  · intro outcomes k e hall hk hke hafter
    have hk5 : k < 5 := hk
    show chatgptLoop outcomes 0 5 none = _
    rw [chatgptLoop_skip outcomes 5 0 5 none (by omega)
      (fun j hj => by simpa using hall j hj)]
    have hlast : lastAfter outcomes 0 5 none = some e :=
      lastAfter_of_last_reject outcomes k 5 0 none e hk5
        (by simpa using hke)
        (fun j h1 h2 e2 => by
          have := hafter j h1 h2 e2
          simpa using this)
    rw [hlast]
    show prependCalls (List.replicate 5 "gpt-4o-mini")
      ⟨[], .threw (chatgptExhaustMsg e)⟩ = _
    simp [prependCalls]
    rfl
  · intro outcomes k e hall hk hke hafter
    have hk5 : k < 5 := hk
    show geminiLoop outcomes 0 5 none = _
    rw [geminiLoop_skip outcomes 5 0 5 none (by omega)
      (fun j hj => by simpa using hall j hj)]
    have hlast : lastAfter outcomes 0 5 none = some e :=
      lastAfter_of_last_reject outcomes k 5 0 none e hk5
        (by simpa using hke)
        (fun j h1 h2 e2 => by
          have := hafter j h1 h2 e2
          simpa using this)
    rw [hlast]
    show prependCalls (geminiModelSlice 0 5) ⟨[], .threw (geminiExhaustMsg e)⟩ = _
    simp [prependCalls]
    rfl

/-- C3 witness: the ChatGPT ladder returns on its second rung after an
empty first response, and five straight retryable rejections exhaust the
Gemini ladder into the terminal error carrying the last error. -/
theorem C3_witness :
    runChatGPTLadder (fun i => if i = 0 then .resolved none else .resolved (some "hi")) =
      ⟨List.replicate 2 "gpt-4o-mini", .returned "hi"⟩ ∧
    runGeminiLadder (fun _ => .rejected overloadedErr) =
      ⟨geminiModelSlice 0 geminiRetrySequence.length,
        .threw (geminiExhaustMsg overloadedErr)⟩ := by
  constructor
  · exact C3_ladder_termination.2.2.1
      (fun i => if i = 0 then .resolved none else .resolved (some "hi"))
      1 (some "hi") "hi" (by decide)
      (fun j hj => by
        have hj0 : j = 0 := by omega
        subst hj0; decide)
      rfl (by decide)
  · exact C3_ladder_termination.2.2.2.2.2 (fun _ => .rejected overloadedErr)
      4 overloadedErr
      (fun j hj => by
        show geminiProceeds (.rejected overloadedErr) = true
        decide)
      (by decide) rfl
      (fun j h1 h2 e2 => by
        have h5 : j < 5 := h2
        omega)

/-! ## C9: the Gemini attempt-log dereference -/

/-- C9 counterexample: `gmMsglessErr` is classified retryable and lacks the
full `data.error.message` chain (the `message` field is absent), yet the
attempt log does not throw — the interpolation prints `undefined` — and
the ladder delays and proceeds to the second rung instead of propagating
an exception. -/
theorem C9_counterexample :
    shouldRetry gmMsglessErr = true ∧
    dataErrMessage gmMsglessErr = none ∧
    runGeminiLadder msglessOutcomes =
      ⟨["gemini-2.5-pro", "gemini-2.5-pro"], .returned "ok"⟩ := by
  decide

/-- C9 (amended): in the Gemini ladder, the attempt-log expression
`error.data.error.message` throws a `TypeError` exactly when `data` or
`data.error` is absent (in particular for every plain network `Error`); in
that case a retryable rung failure aborts the ladder at its first
occurrence with the propagated exception.  When `data.error` is present
— even with its `message` field absent — the log does not throw and the
ladder delays and proceeds to the next rung. -/
theorem C9_gemini_log_dereference :
    (∀ e, geminiLogThrows e = true ↔
      (e.data = none ∨ ∃ d, e.data = some d ∧ d.error = none)) ∧
    (∀ (outcomes : Nat → CallOutcome) (k : Nat) (e : ApiError),
      k < geminiRetrySequence.length →
      (∀ j, j < k → geminiProceeds (outcomes j) = true) →
      outcomes k = .rejected e →
      shouldRetry e = true → geminiLogThrows e = true →
      runGeminiLadder outcomes = ⟨geminiModelSlice 0 (k + 1), .threwTypeError⟩) ∧
    (∀ (outcomes : Nat → CallOutcome) (k : Nat) (e : ApiError),
      k + 1 < geminiRetrySequence.length →
      (∀ j, j < k → geminiProceeds (outcomes j) = true) →
      outcomes k = .rejected e →
      shouldRetry e = true → geminiLogThrows e = false →
      ∃ tail, (runGeminiLadder outcomes).calls =
        geminiModelSlice 0 (k + 1) ++ geminiModels.getD (k + 1) "" :: tail) := by
  refine ⟨geminiLogThrows_iff, ?_, ?_⟩
  · intro outcomes k e hk hp hke ha hl
    have hk5 : k < 5 := hk
    show geminiLoop outcomes 0 5 none = _
    rw [geminiLoop_skip outcomes k 0 5 none (by omega)
      (fun j hj => by simpa using hp j hj)]
    have hrem : 5 - k = (4 - k) + 1 := by omega
    rw [hrem, geminiLoop_typeError outcomes (0 + k) (4 - k) _ e
      (by simpa using hke) ha hl]
    have hsnoc := geminiModelSlice_snoc k 0
    simp only [Nat.zero_add] at hsnoc
    simp [prependCalls, ← hsnoc]
  · intro outcomes k e hk hp hke ha hl
    have hk5 : k + 1 < 5 := hk
    have hpk : ∀ j, j < k + 1 → geminiProceeds (outcomes j) = true := by
      intro j hj
      rcases Nat.lt_succ_iff_lt_or_eq.mp hj with h | h
      · exact hp j h
      · subst h; simp [geminiProceeds, hke, ha, hl]
    have hskip := geminiLoop_skip outcomes (k + 1) 0 5 none (by omega)
      (fun j hj => by simpa using hpk j hj)
    have hrem : 5 - (k + 1) = (3 - k) + 1 := by omega
    obtain ⟨tail, htail⟩ :=
      geminiLoop_head outcomes (0 + (k + 1)) (3 - k)
        (lastAfter outcomes 0 (k + 1) none)
    simp only [Nat.zero_add] at htail
    refine ⟨tail, ?_⟩
    show (geminiLoop outcomes 0 5 none).calls = _
    rw [hskip, hrem]
    simp [prependCalls, htail]

/-- C9 witness: a plain network error on the first rung (retryable, no
`data` object) makes the attempt log throw: the ladder stops after one
call with a `TypeError`. -/
theorem C9_witness :
    shouldRetry plainNetErr = true ∧
    runGeminiLadder (fun _ => .rejected plainNetErr) =
      ⟨geminiModelSlice 0 1, .threwTypeError⟩ := by
  refine ⟨by decide, ?_⟩
  exact C9_gemini_log_dereference.2.1 (fun _ => .rejected plainNetErr) 0 plainNetErr
    (by decide) (fun j hj => absurd hj (by omega)) rfl (by decide) (by decide)

/-! ## C4: ticket-id extraction order -/

theorem extractLoop_none (commit : String) :
    ∀ ps : List (String → Option String),
      (∀ p ∈ ps, p commit = none) → extractLoop commit ps = noTicketId := by
  intro ps
  induction ps with
  | nil => intro _; rfl
  | cons p rest ih =>
    intro h
    have hp : p commit = none := h p (List.mem_cons_self p rest)
    simp only [extractLoop, hp]
    exact ih (fun q hq => h q (List.mem_cons_of_mem p hq))

theorem extractLoop_first_match (commit : String) :
    ∀ (ps : List (String → Option String)) (k : Nat) (m : String),
      k < ps.length →
      (∀ j, j < k → (ps.getD j (fun _ => none)) commit = none) →
      (ps.getD k (fun _ => none)) commit = some m →
      extractLoop commit ps = m := by
  intro ps
  induction ps with
  | nil => intro k m hk _ _; simp at hk
  | cons p rest ih =>
    intro k m hk hbefore hmatch
    cases k with
    | zero =>
      simp only [List.getD_cons_zero] at hmatch
      simp [extractLoop, hmatch]
    | succ k =>
      have hp : p commit = none := by
        have := hbefore 0 (by omega)
        simpa using this
      simp only [extractLoop, hp]
      exact ih k m (by simpa using hk)
        (fun j hj => by
          have := hbefore (j + 1) (by omega)
          simpa using this)
        (by simpa using hmatch)

/-- C4: the ticket id of a commit line is decided by testing the patterns
in a fixed order — the built-in tracker pattern list before the custom
patterns from the config — the first matching pattern's match winning, and
the sentinel `"No ticket ID"` surviving when nothing matches. -/
theorem C4_ticket_extraction :
    (∀ custom : List (String → Option String),
      ticketPatterns custom = builtInPatterns ++ custom) ∧
    (∀ (custom : List (String → Option String)) (commit : String),
      (∀ p ∈ ticketPatterns custom, p commit = none) →
      extractTicketId custom commit = "No ticket ID") ∧
    (∀ (custom : List (String → Option String)) (commit m : String) (k : Nat),
      k < (ticketPatterns custom).length →
      (∀ j, j < k →
        ((ticketPatterns custom).getD j (fun _ => none)) commit = none) →
      ((ticketPatterns custom).getD k (fun _ => none)) commit = some m →
      extractTicketId custom commit = m) ∧
    (∀ (custom : List (String → Option String)) (commit m : String),
      jiraBuiltInMatch commit = some m → extractTicketId custom commit = m) := by
  refine ⟨fun custom => rfl, ?_, ?_, ?_⟩
  · intro custom commit h
    exact extractLoop_none commit (ticketPatterns custom) h
  · intro custom commit m k hk hbefore hmatch
    exact extractLoop_first_match commit (ticketPatterns custom) k m hk hbefore hmatch
  · intro custom commit m h
    simp [extractTicketId, ticketPatterns, builtInPatterns, extractLoop, h]

/-- C4 witness: the built-in pattern wins on a Jira-style subject; an
otherwise-unmatched subject falls to a custom pattern; and a subject
matching nothing yields the sentinel. -/
theorem C4_witness :
    extractTicketId [customPat] "PROJ-1 fix bug" = "PROJ-1" ∧
    extractTicketId [customPat] "feat/AY1Q-T296 fix view creation logic" =
      "AY1Q-T296" ∧
    extractTicketId [customPat] "update readme" = "No ticket ID" := by
  refine ⟨?_, ?_, ?_⟩
  · exact C4_ticket_extraction.2.2.2 [customPat] "PROJ-1 fix bug" "PROJ-1"
      (by decide)
  · exact C4_ticket_extraction.2.2.1 [customPat]
      "feat/AY1Q-T296 fix view creation logic" "AY1Q-T296" 1 (by decide)
      (fun j hj => by
        have hj0 : j = 0 := by omega
        subst hj0; decide)
      (by decide)
  · refine C4_ticket_extraction.2.1 [customPat] "update readme" ?_
    intro p hp
    simp only [ticketPatterns, builtInPatterns, List.cons_append,
      List.nil_append, List.mem_cons, List.mem_singleton] at hp
    rcases hp with h | h | h
    · subst h; decide
    · subst h; decide
    · simp at h

/-! ## C5: active-ticket priority sort -/

theorem cleanLE_trans (a b c : ActiveTicket) :
    cleanLE a b → cleanLE b c → cleanLE a c := by
  simp only [cleanLE, decide_eq_true_eq]
  omega

theorem cleanLE_total (a b : ActiveTicket) :
    cleanLE a b || cleanLE b a := by
  simp only [cleanLE, Bool.or_eq_true, decide_eq_true_eq]
  omega

theorem priorityOrder_cases (p : String) :
    priorityOrder p = .absent ∨ priorityOrder p = .protoMember ∨
      ∃ n, priorityOrder p = .num n ∧ 1 ≤ n ∧ n ≤ 5 := by
  unfold priorityOrder
  split_ifs <;>
    first
      | (left; rfl)
      | (right; left; rfl)
      | (right; right; exact ⟨_, rfl, by omega, by omega⟩)

theorem rankNat_of_absent (p : String) (h : priorityOrder p = .absent) :
    rankNat p = 999 := by
  simp [rankNat, numericRank, priorityRank, h]

theorem rankNat_of_num (p : String) (n : Nat) (h : priorityOrder p = .num n)
    (hn : 1 ≤ n) : rankNat p = n := by
  have h0 : ¬ n = 0 := by omega
  simp [rankNat, numericRank, priorityRank, h, h0]

theorem numericRank_protoMember (p : String)
    (h : priorityOrder p = .protoMember) : numericRank p = none := by
  simp [numericRank, priorityRank, h]

theorem ticketLE_eq_cleanLE (a b : ActiveTicket)
    (ha : (numericRank a.priority).isSome)
    (hb : (numericRank b.priority).isSome) :
    ticketLE a b = cleanLE a b := by
  cases hra : priorityRank a.priority with
  | num x =>
    cases hrb : priorityRank b.priority with
    | num y =>
      simp only [ticketLE, cleanLE, sortCompare, comparatorValue, rankNat,
        numericRank, hra, hrb, Option.getD_some]
      rw [decide_eq_decide]
      omega
    | protoMember => simp [numericRank, hrb] at hb
    | absent => simp [numericRank, hrb] at hb
  | protoMember => simp [numericRank, hra] at ha
  | absent => simp [numericRank, hra] at ha

theorem sortTickets_eq_clean (ts : List ActiveTicket)
    (h : ∀ t ∈ ts, (numericRank t.priority).isSome) :
    sortTickets ts = ts.mergeSort cleanLE := by
  have hmap := @List.map_mergeSort ActiveTicket ActiveTicket ticketLE cleanLE
    id ts (fun a ha b hb => ticketLE_eq_cleanLE a b (h a ha) (h b hb))
  simpa [sortTickets] using hmap

/-- C5 counterexample: a ticket whose priority value is the
`Object.prototype` key `"toString"` is not ranked 999 — the lookup yields
the truthy inherited member, so `|| 999` is skipped and the comparator
value is NaN, which `SortCompare` coerces to +0 (equal) — and the sort
leaves it in front of a `Highest`-priority ticket instead of last (one
equal comparison on a two-element array never reorders a stable sort). -/
theorem C5_counterexample :
    "toString" ∉ ["Highest", "High", "Medium", "Low", "None"] ∧
    priorityRank "toString" = .protoMember ∧
    ¬ priorityRank "toString" = .num 999 ∧
    comparatorValue tProto tHighest = none ∧
    sortCompare tProto tHighest = 0 ∧
    sortTickets [tProto, tHighest] = [tProto, tHighest] := by
  refine ⟨by decide, by decide, by decide, by decide, by decide, ?_⟩
  have hp : List.Pairwise (fun a b => ticketLE a b = true) [tProto, tHighest] := by
    refine List.pairwise_cons.mpr ⟨?_, List.pairwise_singleton _ _⟩
    intro b hb
    simp only [List.mem_singleton] at hb
    subst hb
    decide
  show List.mergeSort [tProto, tHighest] ticketLE = [tProto, tHighest]
  exact List.mergeSort_of_sorted hp

/-- C5 (amended): the comparator ranks the five mapped priority names 1-5
and any other priority 999 — except a priority named like an inherited
`Object.prototype` member, whose lookup yields the truthy inherited
member: the `|| 999` default is skipped, the comparator value is NaN and
`SortCompare` treats the pair as equal, so such tickets are neither
ranked 999 nor forced last.  For ticket lists whose priority values stay
off the prototype chain the comparator is consistent and the sort is the
stable sort by the rank map: a permutation of the tracker order with
non-decreasing ranks, unrecognized values ranked 999 and always last, and
the tracker order preserved among tickets of equal rank. -/
theorem C5_priority_sort :
    priorityRank "Highest" = .num 1 ∧ priorityRank "High" = .num 2 ∧
    priorityRank "Medium" = .num 3 ∧ priorityRank "Low" = .num 4 ∧
    priorityRank "None" = .num 5 ∧
    (∀ p, p ∉ ["Highest", "High", "Medium", "Low", "None"] →
      p ∉ objectPrototypeKeys → priorityRank p = .num 999) ∧
    (∀ p, p ∈ objectPrototypeKeys → priorityRank p = .protoMember) ∧
    (∀ t u : ActiveTicket, priorityRank t.priority = .protoMember →
      comparatorValue t u = none ∧ comparatorValue u t = none ∧
      sortCompare t u = 0 ∧ sortCompare u t = 0) ∧
    (∀ ts, (sortTickets ts).Perm ts) ∧
    (∀ ts, (∀ t ∈ ts, (numericRank t.priority).isSome) →
      (sortTickets ts).Pairwise
        (fun a b => rankNat a.priority ≤ rankNat b.priority)) ∧
    (∀ ts (a b : ActiveTicket), (∀ t ∈ ts, (numericRank t.priority).isSome) →
      List.Sublist [a, b] ts → rankNat a.priority ≤ rankNat b.priority →
      List.Sublist [a, b] (sortTickets ts)) ∧
    (∀ ts, (∀ t ∈ ts, (numericRank t.priority).isSome) →
      (sortTickets ts).Pairwise
        (fun a b => priorityOrder a.priority = .absent →
          priorityOrder b.priority = .absent)) := by
  refine ⟨by decide, by decide, by decide, by decide, by decide,
    ?_, ?_, ?_, ?_, ?_, ?_, ?_⟩
  · intro p hp hproto
    simp only [List.mem_cons, List.mem_singleton, not_or] at hp
    obtain ⟨h1, h2, h3, h4, h5⟩ := hp
    simp [priorityRank, priorityOrder, h1, h2, h3, h4, h5, hproto]
  · intro p hp
    fin_cases hp <;> decide
  · intro t u h
    have h1 : comparatorValue t u = none := by
      unfold comparatorValue
      rw [h]
    have h2 : comparatorValue u t = none := by
      unfold comparatorValue
      rw [h]
      cases priorityRank u.priority <;> rfl
    exact ⟨h1, h2, by simp [sortCompare, h1], by simp [sortCompare, h2]⟩
  · intro ts
    exact List.mergeSort_perm ts ticketLE
  · intro ts hclean
    rw [sortTickets_eq_clean ts hclean]
    have hs := List.sorted_mergeSort cleanLE_trans cleanLE_total ts
    exact hs.imp (fun h => by simpa [cleanLE, decide_eq_true_eq] using h)
  · intro ts a b hclean hsub hle
    rw [sortTickets_eq_clean ts hclean]
    exact List.pair_sublist_mergeSort cleanLE_trans cleanLE_total
      (by simpa [cleanLE, decide_eq_true_eq] using hle) hsub
  · intro ts hclean
    rw [sortTickets_eq_clean ts hclean]
    have hs := List.sorted_mergeSort cleanLE_trans cleanLE_total ts
    refine hs.imp_of_mem ?_
    intro a b ha hb hab habsent
    have hcb := hclean b (List.mem_mergeSort.mp hb)
    have hle : rankNat a.priority ≤ rankNat b.priority := by
      simpa [cleanLE, decide_eq_true_eq] using hab
    have h999 : rankNat a.priority = 999 := rankNat_of_absent _ habsent
    rcases priorityOrder_cases b.priority with h | h | ⟨n, hn, hn1, hn5⟩
    · exact h
    · rw [numericRank_protoMember _ h] at hcb
      simp at hcb
    · have hbn : rankNat b.priority = n := rankNat_of_num _ n hn hn1
      omega

/-- C5 witness: on the sample list (whose priorities are all off the
prototype chain) an unrecognized priority ranks 999, the sort permutes the
tracker order, and the two equal-rank `Low` tickets keep their tracker
order in the output. -/
theorem C5_witness :
    priorityRank "Bogus" = .num 999 ∧
    (sortTickets sampleTickets).Perm sampleTickets ∧
    List.Sublist [tLowOne, tLowTwo] (sortTickets sampleTickets) := by
  refine ⟨?_, ?_, ?_⟩
  · exact C5_priority_sort.2.2.2.2.2.1 "Bogus" (by decide) (by decide)
  · exact C5_priority_sort.2.2.2.2.2.2.2.2.1 sampleTickets
  · exact C5_priority_sort.2.2.2.2.2.2.2.2.2.2.1 sampleTickets tLowOne tLowTwo
      (by intro t ht; fin_cases ht <;> decide)
      (by decide) (by decide)

/-! ## C6: bundle retention -/

theorem processProject_failed (custom : List (String → Option String))
    (p : ProjectEnv) (h : p.scan = .failed) :
    processProject custom p = (none, 0) := by
  simp [processProject, h]

theorem processProject_empty (custom : List (String → Option String))
    (p : ProjectEnv) (h : p.scan = .commitLines []) :
    processProject custom p = (none, 0) := by
  simp [processProject, h]

theorem processProject_commits (custom : List (String → Option String))
    (p : ProjectEnv) (commits : List String)
    (h : p.scan = .commitLines commits) (hne : commits ≠ []) :
    processProject custom p =
      (some ⟨p.name, projectCommitDetails custom p commits,
        projectActiveTickets p⟩, commits.length) := by
  have h0 : ¬ commits.length = 0 := by
    simpa [List.length_eq_zero] using hne
  have hd : (projectCommitDetails custom p commits).length = commits.length := by
    simp [projectCommitDetails]
  have hcond : (projectCommitDetails custom p commits).length > 0 ∨
      (projectActiveTickets p).length > 0 := by
    left; omega
  simp [processProject, h, h0, hd]

theorem mainAggregate_names (custom : List (String → Option String)) :
    ∀ ps : List ProjectEnv,
      ((mainAggregate custom ps).1).map (·.projectName) =
        (ps.filter (fun p => scanHasCommits p)).map (·.name) := by
  intro ps
  induction ps with
  | nil => rfl
  | cons p rest ih =>
    cases hs : p.scan with
    | failed =>
      have hf : scanHasCommits p = false := by simp [scanHasCommits, hs]
      simp [mainAggregate, processProject_failed custom p hs, hf, ih]
    | commitLines commits =>
      cases hc : commits with
      | nil =>
        have hf : scanHasCommits p = false := by simp [scanHasCommits, hs, hc]
        rw [hc] at hs
        simp [mainAggregate, processProject_empty custom p hs, hf, ih]
      | cons c cs =>
        have hne : commits ≠ [] := by simp [hc]
        have hf : scanHasCommits p = true := by simp [scanHasCommits, hs, hc]
        simp [mainAggregate, processProject_commits custom p commits hs hne, hf, ih]

theorem mainAggregate_no_empty_bundle (custom : List (String → Option String)) :
    ∀ (ps : List ProjectEnv) (b : Bundle),
      b ∈ (mainAggregate custom ps).1 → b.commits ≠ [] := by
  intro ps
  induction ps with
  | nil => intro b hb; simp [mainAggregate] at hb
  | cons p rest ih =>
    intro b hb
    rw [mainAggregate] at hb
    rcases List.mem_append.mp hb with h | h
    · cases hs : p.scan with
      | failed =>
        rw [processProject_failed custom p hs] at h
        simp at h
      | commitLines commits =>
        cases hc : commits with
        | nil =>
          rw [hc] at hs
          rw [processProject_empty custom p hs] at h
          simp at h
        | cons c cs =>
          have hne : commits ≠ [] := by simp [hc]
          rw [processProject_commits custom p commits hs hne] at h
          simp only [Option.toList_some, List.mem_singleton] at h
          subst h
          simp [projectCommitDetails, hc]
    · exact ih b h

/-- C6 counterexample: a project whose scan finds no commits but whose
tracker lists an active ticket produces no bundle at all — the
active-ticket listing is only reached inside the branch that requires at
least one commit. -/
theorem C6_counterexample :
    zeroCommitProject.scan = .commitLines [] ∧
    zeroCommitProject.activeList = .ok [tHighest] ∧
    mainAggregate [] [zeroCommitProject] = ([], 0) := by
  refine ⟨rfl, rfl, rfl⟩

/-- C6 (amended): a bundle for a project is retained in the aggregate list
exactly when that project's commit scan succeeded with at least one commit
line — active tickets affect only the bundle's contents, never its
retention — each retained project appearing exactly once, in declaration
order; every retained bundle carries at least one commit detail line, so a
bundle with zero commits and zero active tickets never occurs. -/
theorem C6_bundle_retention :
    (∀ (custom : List (String → Option String)) (ps : List ProjectEnv),
      ((mainAggregate custom ps).1).map (·.projectName) =
        (ps.filter (fun p => scanHasCommits p)).map (·.name)) ∧
    (∀ (custom : List (String → Option String)) (ps : List ProjectEnv)
      (b : Bundle), b ∈ (mainAggregate custom ps).1 → b.commits ≠ []) ∧
    (∀ (custom : List (String → Option String)) (p : ProjectEnv)
      (commits : List String),
      p.scan = .commitLines commits → commits ≠ [] →
      processProject custom p =
        (some ⟨p.name, projectCommitDetails custom p commits,
          projectActiveTickets p⟩, commits.length)) :=
  ⟨mainAggregate_names, mainAggregate_no_empty_bundle, processProject_commits⟩

/-- C6 witness: on a three-project run only the project with commits is
retained, and its bundle is the commit-detail/active-ticket pair. -/
theorem C6_witness :
    ((mainAggregate [] [zeroCommitProject, failedScanProject,
      twoCommitProject]).1).map (·.projectName) =
      ([zeroCommitProject, failedScanProject, twoCommitProject].filter
        (fun p => scanHasCommits p)).map (·.name) ∧
    processProject [] twoCommitProject =
      (some ⟨twoCommitProject.name,
        projectCommitDetails [] twoCommitProject
          ["PROJ-1 fix bug", "update readme"],
        projectActiveTickets twoCommitProject⟩, 2) := by
  constructor
  · exact C6_bundle_retention.1 [] [zeroCommitProject, failedScanProject,
      twoCommitProject]
  · exact C6_bundle_retention.2.2 [] twoCommitProject
      ["PROJ-1 fix bug", "update readme"] rfl (by decide)

/-! ## C7: the single-ticket fetch null contract -/

/-- C7: both `fetchTicketDescription` variants map the sentinel id, an
unrecognized tracker type, a non-success HTTP status and a network-layer
error to a `null` result without consulting the network where the
short-circuit applies — but on a config with the tracker type absent the
`ticket-api.js` variant dereferences `config.taskManagementSystem` without
optional chaining and throws a `TypeError` for any real ticket id, where
the `src/task-management/jira.js` variant returns `null`. -/
theorem C7_fetch_null_contract :
    (∀ (cfg : FetchConfig) (jo zo jo2 zo2 : FetchOutcome),
      fetchTicketDescription_ticketApi noTicketId cfg jo zo =
        fetchTicketDescription_ticketApi noTicketId cfg jo2 zo2 ∧
      fetchTicketDescription_ticketApi noTicketId cfg jo zo = .ok none ∧
      fetchTicketDescription_jira noTicketId cfg jo zo = none) ∧
    (∀ (tid sys : String) (jo zo : FetchOutcome),
      strToLower sys ≠ "jira" → strToLower sys ≠ "zoho" →
      fetchTicketDescription_ticketApi tid ⟨some sys⟩ jo zo = .ok none ∧
      fetchTicketDescription_jira tid ⟨some sys⟩ jo zo = none) ∧
    (∀ (tid : String) (jo zo : FetchOutcome),
      fetchTicketDescription_jira tid ⟨none⟩ jo zo = none) ∧
    (∀ (tid : String) (jo zo : FetchOutcome), tid ≠ noTicketId →
      fetchTicketDescription_ticketApi tid ⟨none⟩ jo zo = .typeError) ∧
    (∀ (tid : String) (jiraOut zohoOut : FetchOutcome),
      (∀ info, jiraOut ≠ .httpOk info) →
      fetchTicketDescription_ticketApi tid ⟨some "jira"⟩ jiraOut zohoOut =
        .ok none ∧
      fetchTicketDescription_jira tid ⟨some "jira"⟩ jiraOut zohoOut = none) ∧
    (∀ (tid : String) (jiraOut zohoOut : FetchOutcome),
      (∀ info, zohoOut ≠ .httpOk info) →
      fetchTicketDescription_ticketApi tid ⟨some "zoho"⟩ jiraOut zohoOut =
        .ok none ∧
      fetchTicketDescription_jira tid ⟨some "zoho"⟩ jiraOut zohoOut = none) := by
  refine ⟨?_, ?_, ?_, ?_, ?_, ?_⟩
  · intro cfg jo zo jo2 zo2
    refine ⟨rfl, ?_, ?_⟩ <;>
      simp [fetchTicketDescription_ticketApi, fetchTicketDescription_jira,
        noTicketId]
  · intro tid sys jo zo h1 h2
    by_cases htid : tid = noTicketId <;>
      simp [fetchTicketDescription_ticketApi, fetchTicketDescription_jira,
        htid, h1, h2, noTicketId]
  · intro tid jo zo
    by_cases htid : tid = noTicketId <;>
      simp [fetchTicketDescription_jira, htid, noTicketId]
  · intro tid jo zo htid
    simp [fetchTicketDescription_ticketApi, htid]
  · intro tid jiraOut zohoOut hfail
    have hj : fetchJiraTicket jiraOut = none := by
      cases jiraOut with
      | httpOk info => exact absurd rfl (hfail info)
      | httpFail s => rfl
      | netError => rfl
    have hlow : strToLower "jira" = "jira" := by decide
    by_cases htid : tid = noTicketId <;>
      simp [fetchTicketDescription_ticketApi, fetchTicketDescription_jira,
        htid, hj, hlow, noTicketId]
  · intro tid jiraOut zohoOut hfail
    have hz : fetchZohoTicket zohoOut = none := by
      cases zohoOut with
      | httpOk info => exact absurd rfl (hfail info)
      | httpFail s => rfl
      | netError => rfl
    have hlow : strToLower "zoho" = "zoho" := by decide
    have hlow2 : strToLower "zoho" ≠ "jira" := by decide
    by_cases htid : tid = noTicketId <;>
      simp [fetchTicketDescription_ticketApi, fetchTicketDescription_jira,
        htid, hz, hlow, hlow2, noTicketId]

/-- C7 witness: at the failing input — a real ticket id and a config with
no tracker type — the `ticket-api.js` variant evaluates to a thrown
`TypeError` while the `src/task-management/jira.js` variant returns
`null`; the sentinel id resolves to `null` in both. -/
theorem C7_witness :
    fetchTicketDescription_ticketApi "PROJ-123" ⟨none⟩ .netError .netError =
      .typeError ∧
    fetchTicketDescription_jira "PROJ-123" ⟨none⟩ .netError .netError = none ∧
    fetchTicketDescription_ticketApi noTicketId ⟨none⟩ .netError .netError =
      .ok none := by
  refine ⟨?_, ?_, ?_⟩
  · exact C7_fetch_null_contract.2.2.2.1 "PROJ-123" .netError .netError
      (by decide)
  · exact C7_fetch_null_contract.2.2.1 "PROJ-123" .netError .netError
  · exact (C7_fetch_null_contract.1 ⟨none⟩ .netError .netError
      .netError .netError).2.1

/-! ## C8: the zero-commit exit path -/

/-- C8: when the running commit total over every configured project is
zero after the whole project loop, the pipeline prints the no-commits
notice and exits with status 0 without building the prompt or invoking the
LLM orchestrator. -/
theorem C8_zero_commits_exit
    (custom : List (String → Option String)) (ps : List ProjectEnv)
    (h : (mainAggregate custom ps).2 = 0) :
    runPipeline custom ps =
      { printedNoCommits := true, promptBuilt := false,
        llmInvoked := false, exitCode := 0 } := by
  simp [runPipeline, h]

/-- C8 witness: a run over an empty-scan project and a failed-scan project
totals zero commits and takes the graceful exit. -/
theorem C8_witness :
    (mainAggregate [] [zeroCommitProject, failedScanProject]).2 = 0 ∧
    runPipeline [] [zeroCommitProject, failedScanProject] =
      { printedNoCommits := true, promptBuilt := false,
        llmInvoked := false, exitCode := 0 } :=
  ⟨rfl, C8_zero_commits_exit [] [zeroCommitProject, failedScanProject] rfl⟩

/-! ## C10: the command used without a `--date` flag -/

/-- C10: with no `--date`/`-d` token among the arguments, the scan runs
`git log --oneline --max-count=5` — extended only by the `--author`
filter when an author is configured, with no `--since`/`--until` — so the
collaborator returns the repository's five most recent commits regardless
of their dates. -/
theorem C10_no_date_flag_command
    (args : List String) (parseDay : String → Option (String × String))
    (dayOk : Int → Bool) (history : List RepoCommit) (a : String)
    (h : dateFlagIdx args = none) :
    selectDates args parseDay = .noFlag ∧
    buildGitCommand (selectDates args parseDay) none =
      "git log --oneline --max-count=5" ∧
    (a ≠ "" → buildGitCommand (selectDates args parseDay) (some a) =
      "git log --oneline --max-count=5 --author=\"" ++ a ++ "\"") ∧
    strIncludes (buildGitCommand (selectDates args parseDay) none)
      "--since" = false ∧
    gitScan dayOk (selectDates args parseDay) history =
      (history.take 5).map (·.line) ∧
    (∀ f : Int → Int,
      gitScan dayOk (selectDates args parseDay)
        (history.map (fun c => ⟨c.line, f c.day⟩)) =
      gitScan dayOk (selectDates args parseDay) history) := by
  have hsel : selectDates args parseDay = .noFlag := by
    simp [selectDates, h]
  refine ⟨hsel, ?_, ?_, ?_, ?_, ?_⟩
  · rw [hsel]; rfl
  · intro ha
    rw [hsel]
    simp [buildGitCommand, ha]
  · rw [hsel]
    decide
  · rw [hsel]; rfl
  · intro f
    rw [hsel]
    simp [gitScan, List.map_take, List.map_map]
    rfl

/-- C10 witness: a run with only a blocker flag builds the plain
max-count command with the author filter appended and scans the five most
recent sample commits. -/
theorem C10_witness :
    selectDates ["--blocker", "stuck"] (fun _ => none) = .noFlag ∧
    buildGitCommand (selectDates ["--blocker", "stuck"] (fun _ => none))
      (some "Jay Mehta") =
      "git log --oneline --max-count=5 --author=\"Jay Mehta\"" ∧
    gitScan (fun _ => true)
      (selectDates ["--blocker", "stuck"] (fun _ => none)) sampleHistory =
      ["aaa fix login", "bbb add tests", "ccc refactor", "ddd docs",
        "eee init"] := by
  have happ := C10_no_date_flag_command ["--blocker", "stuck"] (fun _ => none)
    (fun _ => true) sampleHistory "Jay Mehta" (by decide)
  exact ⟨happ.1, happ.2.2.1 (by decide), happ.2.2.2.2.1.trans (by decide)⟩
